import Mathlib

/-!
Shallow embedding of the hbd heartbeat daemon (src/app_with_mysql_and_cache.rs,
src/cache.rs, src/server.rs).

Modelling decisions:
* `DateTime<Utc>` timestamps are `Nat` ticks; `Utc::now()` becomes an explicit
  `now : Nat` argument of the handler.
* The lock-free hash map of `cache.rs` is an association list keyed by the
  MAC string, with the single-threaded get / insert-or-replace / remove
  semantics of `HeartbeatCache::get_device`, `update_device`, `remove_device`.
* The MySQL collaborator is a record: `connAvailable` models whether
  `AppState::get_connection` succeeds, and `isDeviceActive` gives, per MAC,
  the outcome of `CALL is_device_active(?, @msg)` — either an error or a list
  of `(account_id, squelch)` rows, from which `rows.pop()` takes the last row.
* The handler additionally returns the list of persistent-store writes it
  issues. In the source, `handle_heartbeat_with_cache` contains no
  persistent-store write at all — the write-through steps appear only as
  comments (src/app_with_mysql_and_cache.rs lines 116-134) — so the embedded
  handler's write log is always empty; the log exists so that statements
  about durable writes can be expressed.
-/

namespace Hbd

/-- The axum status codes this code path can produce. -/
inductive StatusCode where
  | OK
  | SERVICE_UNAVAILABLE
  | INTERNAL_SERVER_ERROR
deriving DecidableEq, Repr

/-- The JSON bodies this code path can produce (the success acknowledgment). -/
inductive HbResponse where
  | success
deriving DecidableEq, Repr

/-- `AuthorizedResult` from app_with_mysql_and_cache.rs. -/
structure AuthorizedResult where
  authorized : Bool
  squelched : Bool
deriving DecidableEq, Repr

/-- `HeartbeatCacheInfo` from cache.rs (timestamps as Nat ticks). -/
structure HeartbeatCacheInfo where
  id : Nat
  mac_address : String
  global_ip_address : String
  local_ip_address : String
  last_heartbeat : Nat
  last_heartbeat_write : Option Nat
deriving DecidableEq, Repr

/-- The in-memory device map of `HeartbeatCache`, keyed by MAC address. -/
abbrev HeartbeatCache := List (String × HeartbeatCacheInfo)

/-- `HeartbeatCache::get_device`: look up a device by MAC address. -/
def get_device (c : HeartbeatCache) (mac : String) : Option HeartbeatCacheInfo :=
  match c with
  | [] => none
  | (k, v) :: rest => if k = mac then some v else get_device rest mac

/-- `HeartbeatCache::update_device`: insert or replace keyed by
`device.mac_address`. -/
def update_device (c : HeartbeatCache) (d : HeartbeatCacheInfo) : HeartbeatCache :=
  match c with
  | [] => [(d.mac_address, d)]
  | (k, v) :: rest =>
      if k = d.mac_address then (k, d) :: rest else (k, v) :: update_device rest d

/-- `HeartbeatCache::remove_device`: remove the entry for a MAC address. -/
def remove_device (c : HeartbeatCache) (mac : String) : HeartbeatCache :=
  match c with
  | [] => []
  | (k, v) :: rest => if k = mac then rest else (k, v) :: remove_device rest mac

/-- Outcome of `CALL is_device_active(?, @msg)` for one MAC: either the query
errors, or it yields rows of `(account_id, squelch)` pairs. -/
inductive DbQueryResult where
  | rows (rs : List (Option Int × Int))
  | err
deriving DecidableEq, Repr

/-- The store-facing part of `AppState`: whether a pooled connection can be
obtained, and the per-MAC result of the `is_device_active` procedure. -/
structure AppState where
  connAvailable : Bool
  isDeviceActive : String → DbQueryResult

/-- `HeartbeatQuery` from server.rs (u64/u32 as Nat). -/
structure HeartbeatQuery where
  id : Nat
  mac : String
  ip : String
  long_poll : Option String
  timestamp : Option Nat
  pip : Option String
deriving DecidableEq, Repr

/-- `get_pip` from app_with_mysql_and_cache.rs: a hardcoded constant. -/
def get_pip : String := "127.1.1.0"

/-- `get_status_code` from app_with_mysql_and_cache.rs: matches on a status
that is always `OK`, hence always returns the success JSON. -/
def get_status_code : Except StatusCode HbResponse :=
  let result := StatusCode.OK
  match result with
  | .OK => .ok .success
  | _ => .error .INTERNAL_SERVER_ERROR

/-- `call_is_device_active` from app_with_mysql_and_cache.rs: no connection
is a SERVICE_UNAVAILABLE error; with a connection, `rows.pop()` on a
successful query takes the last row and yields
`{authorized: true, squelched: squelch != 0}`; an empty row set or a query
error both yield `{authorized: false, squelched: true}`. -/
def call_is_device_active (state : AppState) (mac : String) :
    Except StatusCode AuthorizedResult :=
  if state.connAvailable then
    match state.isDeviceActive mac with
    | .rows rs =>
        match rs.getLast? with
        | some (_account_id, squelch) =>
            .ok { authorized := true, squelched := squelch != 0 }
        | none => .ok { authorized := false, squelched := true }
    | .err => .ok { authorized := false, squelched := true }
  else
    .error .SERVICE_UNAVAILABLE

/-- `get_authorized` from app_with_mysql_and_cache.rs: a cache hit is
`{authorized: true, squelched: false}`; a miss queries the store. -/
def get_authorized (state : AppState) (heartbeat_cache : HeartbeatCache)
    (mac : String) : Except StatusCode AuthorizedResult :=
  match get_device heartbeat_cache mac with
  | none => call_is_device_active state mac
  | some _ => .ok { authorized := true, squelched := false }

/-- `get_last_heartbeat_write` from app_with_mysql_and_cache.rs. -/
def get_last_heartbeat_write (heartbeat_cache : HeartbeatCache) (mac : String) :
    Option Nat :=
  match get_device heartbeat_cache mac with
  | none => none
  | some cached_device => cached_device.last_heartbeat_write

/-- Persistent-store write operations named by the spec; the embedded handler
records every write it issues in a log of these. -/
inductive StoreWrite where
  | activateDevice (id : Nat) (mac localIp globalIp : String)
  | recordHeartbeat (id : Nat) (mac localIp globalIp : String) (now : Nat)
deriving DecidableEq, Repr

/-- Result of one run of the heartbeat handler: the HTTP-level response, the
cache after the request, and the persistent-store writes issued during it. -/
structure HbOutcome where
  response : Except StatusCode HbResponse
  cache : HeartbeatCache
  writes : List StoreWrite
deriving Repr

/-- `handle_heartbeat_with_cache` from app_with_mysql_and_cache.rs.
The source resolves authorization (propagating only the connection error with
`?` and otherwise ignoring the verdict), reads the cached
`last_heartbeat_write`, unconditionally upserts a fresh record whose
`global_ip_address` is `get_pip` and whose `last_heartbeat_write` is carried
over, and returns `get_status_code`. It issues no persistent-store write
(the write-through steps are comments in the source), so `writes := []`. -/
def handle_heartbeat_with_cache (state : AppState) (params : HeartbeatQuery)
    (heartbeat_cache : HeartbeatCache) (uninitialized : Bool) (now : Nat) :
    HbOutcome :=
  let device_id := params.id
  let mac_address := params.mac
  let ip_address := params.ip
  let _timestamp := params.timestamp
  let _LP := params.long_poll
  let _uninitialized := uninitialized
  let pip := get_pip
  match get_authorized state heartbeat_cache mac_address with
  | .error e => { response := .error e, cache := heartbeat_cache, writes := [] }
  | .ok _authorized =>
      let last_heartbeat_write := get_last_heartbeat_write heartbeat_cache mac_address
      let device_update : HeartbeatCacheInfo :=
        { id := device_id
          mac_address := mac_address
          global_ip_address := pip
          local_ip_address := ip_address
          last_heartbeat := now
          last_heartbeat_write := last_heartbeat_write }
      { response := get_status_code
        cache := update_device heartbeat_cache device_update
        writes := [] }

/-- One inbound request, as dispatched by server.rs: `handle_heartbeat`
(uninit = false) or `handle_heartbeat_uninitialized` (uninit = true), each
with its store state and arrival time. -/
structure Request where
  state : AppState
  params : HeartbeatQuery
  uninitialized : Bool
  now : Nat

/-- Cache after serving one request. -/
def stepCache (c : HeartbeatCache) (r : Request) : HeartbeatCache :=
  (handle_heartbeat_with_cache r.state r.params c r.uninitialized r.now).cache

/-- Cache after serving a sequence of requests. -/
def runRequests (c : HeartbeatCache) (rs : List Request) : HeartbeatCache :=
  rs.foldl stepCache c

/-! Concrete fixtures used to instantiate theorems. -/

/-- A sample MAC address. -/
def macA : String := "AA:BB:CC:DD:EE:FF"

/-- A sample cached record for `macA` with local IP 10.0.0.5. -/
def devA : HeartbeatCacheInfo :=
  { id := 7
    mac_address := macA
    global_ip_address := "127.1.1.0"
    local_ip_address := "10.0.0.5"
    last_heartbeat := 100
    last_heartbeat_write := some 90 }

/-- Store state: connection available, device active and not squelched. -/
def stOk : AppState :=
  { connAvailable := true, isDeviceActive := fun _ => .rows [(some 1, 0)] }

/-- Store state: connection available, device active and squelched. -/
def stSquelch : AppState :=
  { connAvailable := true, isDeviceActive := fun _ => .rows [(some 1, 1)] }

/-- Store state: connection available, no matching row for any device. -/
def stDeny : AppState :=
  { connAvailable := true, isDeviceActive := fun _ => .rows [] }

/-- Store state: no connection can be obtained. -/
def stDown : AppState :=
  { connAvailable := false, isDeviceActive := fun _ => .err }

/-- A sample heartbeat request for `macA` with IP 10.0.0.6. -/
def qA : HeartbeatQuery :=
  { id := 7
    mac := macA
    ip := "10.0.0.6"
    long_poll := none
    timestamp := none
    pip := none }

/-! Helper lemmas about the embedded operations. -/

/-- Looking a key up after an upsert: the upserted record is found under its
own MAC, other keys are unaffected. -/
theorem get_device_update_device (c : HeartbeatCache) (d : HeartbeatCacheInfo)
    (mac : String) :
    get_device (update_device c d) mac =
      if d.mac_address = mac then some d else get_device c mac := by
  induction c with
  | nil => simp [update_device, get_device]
  | cons kv rest ih =>
      obtain ⟨k, v⟩ := kv
      by_cases hk : k = d.mac_address
      · subst hk
        by_cases hm : d.mac_address = mac <;> simp [update_device, get_device, hm]
      · by_cases hm : k = mac
        · have hne : ¬ d.mac_address = mac := fun h2 => hk (hm.trans h2.symm)
          have hk2 : ¬ mac = d.mac_address := fun h2 => hk (hm.trans h2)
          simp [update_device, get_device, hk2, hm, hne]
        · simp [update_device, get_device, hk, hm, ih]

/-- An upsert preserves any per-entry property that the new record enjoys. -/
theorem all_update_device (c : HeartbeatCache) (d : HeartbeatCacheInfo)
    (f : String × HeartbeatCacheInfo → Bool)
    (hc : c.all f = true) (hd : f (d.mac_address, d) = true) :
    (update_device c d).all f = true := by
  induction c with
  | nil => simp [update_device, hd]
  | cons kv rest ih =>
      obtain ⟨k, v⟩ := kv
      simp only [List.all_cons, Bool.and_eq_true] at hc
      by_cases hk : k = d.mac_address
      · subst hk
        simp [update_device, hd, hc.2]
      · simp only [update_device, if_neg hk, List.all_cons, Bool.and_eq_true]
        exact ⟨hc.1, ih hc.2⟩

/-- A record found by `get_device` satisfies any property all entries enjoy. -/
theorem all_get_device (c : HeartbeatCache) (mac : String)
    (d : HeartbeatCacheInfo) (f : String × HeartbeatCacheInfo → Bool)
    (hc : c.all f = true) (h : get_device c mac = some d) :
    f (mac, d) = true := by
  induction c with
  | nil => simp [get_device] at h
  | cons kv rest ih =>
      obtain ⟨k, v⟩ := kv
      simp only [List.all_cons, Bool.and_eq_true] at hc
      simp only [get_device] at h
      split at h
      · rename_i heq
        injection h with h2
        subst h2
        subst heq
        exact hc.1
      · rename_i heq
        exact ih hc.2 h

/-- The cache component of one handler run, by authorization outcome. -/
theorem handle_cache_eq (state : AppState) (params : HeartbeatQuery)
    (c : HeartbeatCache) (u : Bool) (now : Nat) :
    (handle_heartbeat_with_cache state params c u now).cache =
      match get_authorized state c params.mac with
      | .error _ => c
      | .ok _ =>
          update_device c
            { id := params.id
              mac_address := params.mac
              global_ip_address := get_pip
              local_ip_address := params.ip
              last_heartbeat := now
              last_heartbeat_write := get_last_heartbeat_write c params.mac } := by
  cases hga : get_authorized state c params.mac <;>
    simp [handle_heartbeat_with_cache, hga]

/-- The response component of one handler run, by authorization outcome. -/
theorem handle_response_eq (state : AppState) (params : HeartbeatQuery)
    (c : HeartbeatCache) (u : Bool) (now : Nat) :
    (handle_heartbeat_with_cache state params c u now).response =
      match get_authorized state c params.mac with
      | .error e => .error e
      | .ok _ => .ok .success := by
  cases hga : get_authorized state c params.mac <;>
    simp [handle_heartbeat_with_cache, hga, get_status_code]

/-- The handler never issues a persistent-store write. -/
theorem handle_writes_eq (state : AppState) (params : HeartbeatQuery)
    (c : HeartbeatCache) (u : Bool) (now : Nat) :
    (handle_heartbeat_with_cache state params c u now).writes = [] := by
  cases hga : get_authorized state c params.mac <;>
    simp [handle_heartbeat_with_cache, hga]

/-- If every cached record has no recorded durable write, the lookup of the
last durable-write timestamp yields `none`. -/
theorem get_last_heartbeat_write_none (c : HeartbeatCache) (mac : String)
    (hc : c.all (fun e => e.2.last_heartbeat_write.isNone) = true) :
    get_last_heartbeat_write c mac = none := by
  cases h : get_device c mac with
  | none => simp [get_last_heartbeat_write, h]
  | some d =>
      have h2 := all_get_device c mac d _ hc h
      simp only [Option.isNone_iff_eq_none] at h2
      simp [get_last_heartbeat_write, h, h2]

/-- Serving one request preserves the property that no cached record has a
recorded durable write. -/
theorem stepCache_write_none (c : HeartbeatCache) (r : Request)
    (hc : c.all (fun e => e.2.last_heartbeat_write.isNone) = true) :
    (stepCache c r).all (fun e => e.2.last_heartbeat_write.isNone) = true := by
  unfold stepCache
  rw [handle_cache_eq]
  cases get_authorized r.state c r.params.mac with
  | error e => exact hc
  | ok a =>
      apply all_update_device _ _ _ hc
      simp [get_last_heartbeat_write_none c r.params.mac hc]

/-- A per-entry property preserved by each step holds after any request
sequence from a state enjoying it. -/
theorem all_runRequests (f : String × HeartbeatCacheInfo → Bool)
    (hstep : ∀ c r, c.all f = true → (stepCache c r).all f = true)
    (c : HeartbeatCache) (rs : List Request) (hc : c.all f = true) :
    (runRequests c rs).all f = true := by
  induction rs generalizing c with
  | nil => simpa [runRequests] using hc
  | cons r rest ih =>
      simp only [runRequests, List.foldl_cons]
      exact ih (stepCache c r) (hstep c r hc)

/-- Serving one request preserves the property that every cached record's
global IP address is the constant 127.1.1.0. -/
theorem stepCache_global_ip (c : HeartbeatCache) (r : Request)
    (hc : c.all (fun e => e.2.global_ip_address == "127.1.1.0") = true) :
    (stepCache c r).all (fun e => e.2.global_ip_address == "127.1.1.0") = true := by
  unfold stepCache
  rw [handle_cache_eq]
  cases get_authorized r.state c r.params.mac with
  | error e => exact hc
  | ok a =>
      apply all_update_device _ _ _ hc
      simp [get_pip]

/-! Claim theorems. -/

/-- C1: evaluation of the code at the failing input. The cache holds a record
for macA with local IP 10.0.0.5 and the incoming heartbeat carries IP
10.0.0.6, so the local IP changed; the handler accepts the heartbeat and
stores the new IP, yet issues no persistent-store write at all — the claim
that any IP change triggers an immediate durable write fails on the code
(the write-through steps exist only as comments in the source). -/
theorem C1_ip_change_no_durable_write :
    devA.local_ip_address = "10.0.0.5" ∧ qA.ip = "10.0.0.6" ∧
    (handle_heartbeat_with_cache stOk qA [(macA, devA)] false 200).response
      = .ok .success ∧
    ((get_device (handle_heartbeat_with_cache stOk qA [(macA, devA)] false 200).cache
        macA).map (fun d => d.local_ip_address)) = some "10.0.0.6" ∧
    (handle_heartbeat_with_cache stOk qA [(macA, devA)] false 200).writes = [] :=
  ⟨rfl, rfl, rfl, rfl, rfl⟩

/-- C2: evaluation of the code at the failing input. The store denies macA
(no matching row, verdict authorized=false), the cache is empty; the handler
nevertheless returns the success acknowledgment, creates a cache entry for
macA, and the next heartbeat's authorization is answered from the cache as
authorized instead of re-querying the store — contradicting the claim that a
denied heartbeat removes the cache entry and signals a denial outcome. -/
theorem C2_denied_heartbeat_cached_as_success :
    call_is_device_active stDeny macA
      = .ok { authorized := false, squelched := true } ∧
    (handle_heartbeat_with_cache stDeny qA [] false 10).response = .ok .success ∧
    (get_device (handle_heartbeat_with_cache stDeny qA [] false 10).cache macA).isSome
      = true ∧
    get_authorized stDeny (handle_heartbeat_with_cache stDeny qA [] false 10).cache macA
      = .ok { authorized := true, squelched := false } :=
  ⟨rfl, rfl, rfl, rfl⟩

/-- C3 counterexample: the store reports macA authorized and squelched; after
one heartbeat the device is cached, and the resolver then answers
squelched=false on the cache hit — the squelch bit is hardcoded false, not
taken from the entry (HeartbeatCacheInfo stores no squelched flag), refuting
the claim that the cached entry supplies the squelch bit. -/
theorem C3_squelch_bit_not_from_cache :
    call_is_device_active stSquelch macA
      = .ok { authorized := true, squelched := true } ∧
    (get_device (handle_heartbeat_with_cache stSquelch qA [] false 10).cache macA).isSome
      = true ∧
    get_authorized stSquelch
        (handle_heartbeat_with_cache stSquelch qA [] false 10).cache macA
      = .ok { authorized := true, squelched := false } :=
  ⟨rfl, rfl, rfl⟩

/-- C3 (amended): on a cache hit the resolver returns authorized=true with
squelched=false (the cache record carries no squelched flag; the squelch bit
is the constant false); on a miss it queries the persistent store's
authorization check. -/
theorem C3_resolver_cases (state : AppState) (c : HeartbeatCache) (mac : String) :
    (∀ d, get_device c mac = some d →
      get_authorized state c mac = .ok { authorized := true, squelched := false }) ∧
    (get_device c mac = none →
      get_authorized state c mac = call_is_device_active state mac) := by
  constructor
  · intro d h
    simp [get_authorized, h]
  · intro h
    simp [get_authorized, h]

/-- C3 witness: the amended resolver behavior at concrete inputs. -/
theorem C3_resolver_cases_witness :
    get_authorized stSquelch [(macA, devA)] macA
      = .ok { authorized := true, squelched := false } ∧
    get_authorized stSquelch [] macA = call_is_device_active stSquelch macA :=
  ⟨(C3_resolver_cases stSquelch [(macA, devA)] macA).1 devA rfl,
   (C3_resolver_cases stSquelch [] macA).2 rfl⟩

/-- C4: evaluation of the code at the failing input. A first-sighting
heartbeat with the uninitialized flag set is accepted, but the handler issues
no activate_device (nor any other persistent-store) write, and the immediate
replay also issues none — zero activation writes where the claim requires
exactly one. -/
theorem C4_uninitialized_no_activation_write :
    (handle_heartbeat_with_cache stOk qA [] true 10).response = .ok .success ∧
    (handle_heartbeat_with_cache stOk qA [] true 10).writes = [] ∧
    (handle_heartbeat_with_cache stOk qA
        (handle_heartbeat_with_cache stOk qA [] true 10).cache true 11).writes = [] :=
  ⟨rfl, rfl, rfl⟩

/-- C5: fail-closed deny — for a MAC missing from the cache, if a store
connection is obtained but the authorization query errors or returns no
matching row, the resolver returns the non-error verdict authorized=false,
squelched=true. -/
theorem C5_fail_closed_deny (state : AppState) (c : HeartbeatCache) (mac : String)
    (hmiss : get_device c mac = none)
    (hconn : state.connAvailable = true)
    (hq : state.isDeviceActive mac = .err ∨ state.isDeviceActive mac = .rows []) :
    get_authorized state c mac = .ok { authorized := false, squelched := true } := by
  rcases hq with h | h <;>
    simp [get_authorized, hmiss, call_is_device_active, hconn, h, List.getLast?]

/-- C5 witness: the fail-closed verdict at a concrete empty-row store. -/
theorem C5_fail_closed_deny_witness :
    get_authorized stDeny [] macA = .ok { authorized := false, squelched := true } :=
  C5_fail_closed_deny stDeny [] macA rfl rfl (Or.inr rfl)

/-- C6: when no store connection can be obtained during authorization (the
cache miss forces the store query), the handler returns SERVICE_UNAVAILABLE
and the cache is exactly as before the request. -/
theorem C6_conn_failure_no_mutation (state : AppState) (p : HeartbeatQuery)
    (c : HeartbeatCache) (u : Bool) (now : Nat)
    (hmiss : get_device c p.mac = none)
    (hconn : state.connAvailable = false) :
    (handle_heartbeat_with_cache state p c u now).response
      = .error .SERVICE_UNAVAILABLE ∧
    (handle_heartbeat_with_cache state p c u now).cache = c := by
  have hga : get_authorized state c p.mac = .error .SERVICE_UNAVAILABLE := by
    simp [get_authorized, hmiss, call_is_device_active, hconn]
  refine ⟨?_, ?_⟩
  · rw [handle_response_eq, hga]
  · rw [handle_cache_eq, hga]

/-- C6 witness: the service-unavailable outcome at a concrete down store. -/
theorem C6_conn_failure_no_mutation_witness :
    (handle_heartbeat_with_cache stDown qA [] false 10).response
      = .error .SERVICE_UNAVAILABLE ∧
    (handle_heartbeat_with_cache stDown qA [] false 10).cache = [] :=
  C6_conn_failure_no_mutation stDown qA [] false 10 rfl rfl

/-- C7: in every cache state reachable from the empty cache by any sequence
of heartbeat-handler requests, every record satisfies: whenever its
last_heartbeat_write field is set, it is at most its last_heartbeat field
(in fact the handler only ever carries last_heartbeat_write over and never
sets it, so the field is none in every reachable record). -/
theorem C7_durable_write_le_heartbeat (rs : List Request) :
    (runRequests [] rs).all
      (fun e =>
        match e.2.last_heartbeat_write with
        | none => true
        | some w => decide (w ≤ e.2.last_heartbeat)) = true := by
  have hnone := all_runRequests (fun e => e.2.last_heartbeat_write.isNone)
    stepCache_write_none [] rs (by simp)
  rw [List.all_eq_true] at hnone ⊢
  intro e he
  have h1 := hnone e he
  have h2 : e.2.last_heartbeat_write = none := by simpa using h1
  simp [h2]

/-- C8: the optional client timestamp never influences the handler — two
requests identical except for the timestamp field produce the same response,
resulting cache state, and write log. -/
theorem C8_timestamp_has_no_influence (state : AppState) (p : HeartbeatQuery)
    (c : HeartbeatCache) (u : Bool) (now : Nat) (ts1 ts2 : Option Nat) :
    handle_heartbeat_with_cache state { p with timestamp := ts1 } c u now
      = handle_heartbeat_with_cache state { p with timestamp := ts2 } c u now := rfl

/-- C9: every record in every reachable cache state stores the constant
global IP 127.1.1.0, and the client-supplied pip query parameter has no
influence on the handler's response, resulting cache state, or write log. -/
theorem C9_global_ip_hardcoded (rs : List Request) (state : AppState)
    (p : HeartbeatQuery) (c : HeartbeatCache) (u : Bool) (now : Nat)
    (pip1 pip2 : Option String) :
    (runRequests [] rs).all (fun e => e.2.global_ip_address == "127.1.1.0") = true ∧
    handle_heartbeat_with_cache state { p with pip := pip1 } c u now
      = handle_heartbeat_with_cache state { p with pip := pip2 } c u now := by
  refine ⟨?_, rfl⟩
  exact all_runRequests _ stepCache_global_ip [] rs (by simp)

/-- C10: for a MAC already cached the handler succeeds (it never hits the
store, so no service-unavailable) and the upserted record carries the
previous entry's last_heartbeat_write over unchanged, keyed by the request
MAC. -/
theorem C10_last_write_carried_over (state : AppState) (p : HeartbeatQuery)
    (c : HeartbeatCache) (u : Bool) (now : Nat) (old : HeartbeatCacheInfo)
    (h : get_device c p.mac = some old) :
    (handle_heartbeat_with_cache state p c u now).response = .ok .success ∧
    ∃ newd,
      get_device (handle_heartbeat_with_cache state p c u now).cache p.mac
        = some newd ∧
      newd.last_heartbeat_write = old.last_heartbeat_write ∧
      newd.mac_address = p.mac := by
  have hga : get_authorized state c p.mac
      = .ok { authorized := true, squelched := false } := by
    simp [get_authorized, h]
  constructor
  · rw [handle_response_eq, hga]
  · refine ⟨{ id := p.id, mac_address := p.mac, global_ip_address := get_pip,
              local_ip_address := p.ip, last_heartbeat := now,
              last_heartbeat_write := get_last_heartbeat_write c p.mac },
      ?_, ?_, rfl⟩
    · rw [handle_cache_eq, hga, get_device_update_device]
      simp
    · simp [get_last_heartbeat_write, h]

/-- C10 witness: the carried-over write timestamp at a concrete cached
record. -/
theorem C10_last_write_carried_over_witness :
    (handle_heartbeat_with_cache stOk qA [(macA, devA)] false 200).response
      = .ok .success ∧
    ∃ newd,
      get_device (handle_heartbeat_with_cache stOk qA [(macA, devA)] false 200).cache
        qA.mac = some newd ∧
      newd.last_heartbeat_write = devA.last_heartbeat_write ∧
      newd.mac_address = qA.mac :=
  C10_last_write_carried_over stOk qA [(macA, devA)] false 200 devA rfl

end Hbd
